import Mathlib

/-!
Verification development for the school-meeting-hub submission pipeline
(src/app.py): data model, relay upload client, staging cart, batch commit
loop, directory authentication, and a read-cache model.

Machine-level conventions: raw attachment bytes are `List Nat` (each < 256
in practice; the byte arithmetic below only uses `/` and `%` so no overflow
modelling is needed); Python string returns that may be `None` are
`Option String` (`some s` = the Python string `s`, `none` = Python `None`).
-/

/-- An uploaded file as seen by the app: `getvalue()` bytes, `name`, and the
MIME `type` (field renamed `mimeType` since `type` is a Lean keyword). -/
structure FileObj where
  content : List Nat
  name : String
  mimeType : String
deriving DecidableEq, Repr

/-- A spreadsheet cell as returned by `get_all_records`: a string or a
number (numeric cells come back as Python ints). -/
inductive Cell where
  | str (s : String)
  | num (n : Int)
deriving DecidableEq, Repr

/-- `pandas .astype(str)` / Python `str()` rendering of a cell. -/
def Cell.toText : Cell → String
  | .str s => s
  | .num n => toString n

/-- One row of the `config` worksheet: `department`, `group`, `password`. -/
structure ConfigRow where
  department : String
  group : String
  password : Cell
deriving DecidableEq, Repr

/-- One staged entry of `st.session_state.cart`:
`{'content': ..., 'file': ..., 'file_name': ...}` (src/app.py:224-228). -/
structure CartItem where
  content : String
  file : Option FileObj
  file_name : String
deriving DecidableEq, Repr

/-- One appended row of the `records` worksheet, in the column order built
at src/app.py:262-270. `attachmentURL` is `Option String` because
`upload_file_via_gas` can return Python `None` (`result.get("url")`). -/
structure Record where
  id : String
  submittedAt : String
  meetingDate : String
  department : String
  group : String
  content : String
  attachmentURL : Option String
deriving DecidableEq, Repr

/-- Session state relevant to login: `logged_in`, `user_info` (dept, group),
and the cart (src/app.py:112-117). -/
structure Session where
  logged_in : Bool
  user_info : Option (String × String)
  cart : List CartItem
deriving DecidableEq, Repr

/-! ## Base64 (Python `base64.b64encode(...).decode('utf-8')`) -/

/-- The RFC 4648 base64 digit for a 6-bit value. -/
def b64Char (n : Nat) : Char :=
  "ABCDEFGHIJKLMNOPQRSTUVWXYZabcdefghijklmnopqrstuvwxyz0123456789+/".toList.getD n 'A'

/-- RFC 4648 base64 with `=` padding, as produced by `base64.b64encode`. -/
def base64Encode : List Nat → String
  | [] => ""
  | [a] => String.mk [b64Char (a / 4), b64Char (a % 4 * 16), '=', '=']
  | [a, b] => String.mk [b64Char (a / 4), b64Char (a % 4 * 16 + b / 16), b64Char (b % 16 * 4), '=']
  | a :: b :: c :: rest =>
      String.mk [b64Char (a / 4), b64Char (a % 4 * 16 + b / 16),
                 b64Char (b % 16 * 4 + c / 64), b64Char (c % 64)]
        ++ base64Encode rest

/-! ## Relay upload client (`upload_file_via_gas`, src/app.py:62-90) -/

/-- The JSON payload POSTed to the GAS relay (src/app.py:72-76). -/
structure UploadPayload where
  file : String
  filename : String
  mimeType : String
deriving DecidableEq, Repr

/-- The fields of the parsed relay JSON response that the code reads via
`result.get(...)`: `status`, `url`, `message`; `none` = key absent. -/
structure JsonObj where
  status : Option String
  url : Option String
  message : Option String
deriving DecidableEq, Repr

/-- The body of an HTTP response: either not parseable as JSON
(`response.json()` raises) or a parsed JSON object. -/
inductive HttpBody where
  | notJson (raw : String)
  | json (o : JsonObj)
deriving DecidableEq, Repr

/-- Outcome of the `requests.post` call: the request itself raised, or a
response with a status code and body arrived. -/
inductive HttpOutcome where
  | exn (msg : String)
  | resp (code : Nat) (body : HttpBody)
deriving DecidableEq, Repr

/-- Which `st.error` branch (if any) `upload_file_via_gas` displays:
nothing, the `上傳失敗` message (carrying `result.get('message')`), or the
generic `連線錯誤` handler of the `except` clause. -/
inductive UploadDisplay where
  | nothing
  | uploadFailed (message : Option String)
  | connectionError
deriving DecidableEq, Repr

/-- The JSON payload built for a file (src/app.py:69-76): `file` is the
base64 of `getvalue()`, plus `filename` and `mimeType`. -/
def uploadPayload (f : FileObj) : UploadPayload :=
  { file := base64Encode f.content, filename := f.name, mimeType := f.mimeType }

/-- `upload_file_via_gas` (src/app.py:62-90) over an abstract HTTP outcome.
Returns the Python return value (`Option String`: `some s` = string `s`,
`none` = Python `None` from `result.get("url")`) paired with the error
display branch taken. Note the code never checks `response.status_code`. -/
def upload_file_via_gas (file_obj : Option FileObj) (http : HttpOutcome) :
    Option String × UploadDisplay :=
  match file_obj with
  | none => (some "", .nothing)
  | some _ =>
    match http with
    | .exn _ => (some "", .connectionError)
    | .resp _code body =>
      match body with
      | .notJson _ => (some "", .connectionError)
      | .json result =>
        if result.status = some "success" then (result.url, .nothing)
        else (some "", .uploadFailed result.message)

/-! ## Staging (`加入暫存清單` button, src/app.py:222-231) -/

/-- The stage action: Python `if new_content:` appends the dict to the cart,
else `st.error("內容不能為空")` leaves the cart alone. `Except.error`
models the ValidationError path. -/
def stage (content : String) (uploaded_file : Option FileObj) (cart : List CartItem) :
    Except String (List CartItem) :=
  if content = "" then Except.error "內容不能為空"
  else Except.ok (cart ++
    [{ content := content, file := uploaded_file,
       file_name := match uploaded_file with | some f => f.name | none => "無附件" }])

/-! ## Directory authentication (login handler, src/app.py:138-153) -/

/-- The login filter (src/app.py:140-144): keep config rows whose
`department` and `group` equal the selections and whose
`password.astype(str)` equals `str(password)` (the text input is already a
string, so `str` is the identity on it); login succeeds iff the filtered
frame is non-empty (`not valid_user.empty`). -/
def authenticate (df_config : List ConfigRow) (dept grp secret : String) : Bool :=
  !(df_config.filter (fun r =>
      r.department == dept && r.group == grp && r.password.toText == secret)).isEmpty

/-- The login button handler's effect on the session (src/app.py:146-153):
on a match, set `logged_in` and `user_info`; otherwise only
`st.error("密碼錯誤")` runs and the session is untouched. -/
def loginAttempt (df_config : List ConfigRow) (dept grp secret : String)
    (sess : Session) : Session :=
  if authenticate df_config dept grp secret then
    { sess with logged_in := true, user_info := some (dept, grp) }
  else sess

/-! ## Batch commit pipeline (`確認送出所有報告` handler, src/app.py:245-282) -/

/-- The environment the commit loop runs in: `ids i` is
`str(hash(item['content'] + str(time.time())))` for the i-th item, `times i`
is `datetime.now().strftime(...)`, `http i` is the HTTP outcome of the i-th
item's relay upload (if performed), and `appendOk i` says whether
`ws_records.append_row` succeeds (False = it raises) for the i-th item. -/
structure CommitEnv where
  ids : Nat → String
  times : Nat → String
  http : Nat → HttpOutcome
  appendOk : Nat → Bool

/-- Result of one run of the commit handler: the records worksheet, the
cart, the sequence of `progress_bar.progress((i+1)/total)` events (kept as
exact pairs `(i+1, total)` rather than floats), and whether the success
path (src/app.py:275-279) was reached. -/
structure CommitResult where
  store : List Record
  cart : List CartItem
  progress : List (Nat × Nat)
  success : Bool
deriving DecidableEq, Repr

/-- The `new_row` built for the i-th item (src/app.py:257-270): `file_link`
starts as `""` and is replaced by the upload result when the item has a
file. -/
def mkRecord (env : CommitEnv) (ident : String × String) (meetingDate : String)
    (i : Nat) (item : CartItem) : Record :=
  { id := env.ids i, submittedAt := env.times i, meetingDate := meetingDate,
    department := ident.1, group := ident.2, content := item.content,
    attachmentURL :=
      match item.file with
      | none => some ""
      | some f => (upload_file_via_gas (some f) (env.http i)).1 }

/-- The records produced for a suffix of the cart starting at index `i`. -/
def mkRecords (env : CommitEnv) (ident : String × String) (meetingDate : String) :
    Nat → List CartItem → List Record
  | _, [] => []
  | i, item :: rest =>
      mkRecord env ident meetingDate i item :: mkRecords env ident meetingDate (i + 1) rest

/-- The progress events `(i+1, N) ... (i+n, N)` emitted by `n` consecutive
successful iterations starting at index `i`. -/
def progOk (N : Nat) : Nat → Nat → List (Nat × Nat)
  | _, 0 => []
  | i, n + 1 => (i + 1, N) :: progOk N (i + 1) n

/-- The `for i, item in enumerate(st.session_state.cart)` loop inside the
`try` (src/app.py:253-282). Each iteration uploads the item's file (if
any), builds `new_row`, and calls `append_row`; if the append raises, the
`except` clause runs: nothing further is attempted and the cart keeps its
original contents. On normal loop exit the cart is cleared. -/
def commitGo (env : CommitEnv) (ident : String × String) (meetingDate : String)
    (orig : List CartItem) (N : Nat) :
    Nat → List CartItem → List Record → List (Nat × Nat) → CommitResult
  | _, [], store, prog => { store := store, cart := [], progress := prog, success := true }
  | i, item :: rest, store, prog =>
      let row := mkRecord env ident meetingDate i item
      if env.appendOk i then
        commitGo env ident meetingDate orig N (i + 1) rest (store ++ [row])
          (prog ++ [(i + 1, N)])
      else
        { store := store, cart := orig, progress := prog, success := false }

/-- One press of `確認送出所有報告` on the given cart and records sheet. -/
def commitBatch (env : CommitEnv) (ident : String × String) (meetingDate : String)
    (cart : List CartItem) (store : List Record) : CommitResult :=
  commitGo env ident meetingDate cart cart.length 0 cart store []

/-! ## Read cache

Modelled from the spec: §4.2 describes a TTL-based Read Cache with
`get()` and `invalidate()` (reference TTL 60s). The version under
src/app.py has no such cache — `get_data` (src/app.py:45-60) fetches
fresh on every rerun and `@st.cache_resource` only caches the gspread
connection — so the cache is modelled here from the spec's words. -/

/-- Modelled from the spec: the cache's state — the snapshot (`none` after
`invalidate()` or before the first fetch), its fetch time, and a count of
external fetches performed. -/
structure CacheState where
  data : Option (List Record)
  fetchedAt : Nat
  fetchCount : Nat
deriving DecidableEq, Repr

/-- Modelled from the spec: `get()` returns the snapshot while
`now - fetchedAt < TTL`, otherwise fetches fresh from the store, replaces
the snapshot, and counts one external fetch. -/
def cacheGet (ttl now : Nat) (storeData : List Record) (c : CacheState) :
    List Record × CacheState :=
  match c.data with
  | some d =>
      if now - c.fetchedAt < ttl then (d, c)
      else (storeData, { data := some storeData, fetchedAt := now,
                         fetchCount := c.fetchCount + 1 })
  | none => (storeData, { data := some storeData, fetchedAt := now,
                          fetchCount := c.fetchCount + 1 })

/-- Modelled from the spec: `invalidate()` drops the snapshot so the next
`get()` fetches fresh regardless of remaining TTL. -/
def cacheInvalidate (c : CacheState) : CacheState :=
  { c with data := none }

/-! ## Helper lemmas about the commit loop -/

theorem progOk_eq_range (N : Nat) : ∀ (n i : Nat),
    progOk N i n = (List.range n).map (fun j => (i + j + 1, N)) := by
  intro n
  induction n with
  | zero => intro i; rfl
  | succ m ih =>
      intro i
      rw [List.range_succ_eq_map]
      simp only [progOk, List.map_cons, List.map_map, ih (i + 1)]
      congr 1
      apply List.map_congr_left
      intro j _
      show (i + 1 + j + 1, N) = (i + (j + 1) + 1, N)
      congr 1
      omega

theorem mkRecords_length (env : CommitEnv) (ident : String × String) (md : String) :
    ∀ (items : List CartItem) (i : Nat),
    (mkRecords env ident md i items).length = items.length := by
  intro items
  induction items with
  | nil => intro i; rfl
  | cons a rest ih => intro i; simp [mkRecords, ih (i + 1)]

theorem mkRecords_map_content (env : CommitEnv) (ident : String × String) (md : String) :
    ∀ (items : List CartItem) (i : Nat),
    (mkRecords env ident md i items).map (fun r => r.content)
      = items.map (fun x => x.content) := by
  intro items
  induction items with
  | nil => intro i; rfl
  | cons a rest ih => intro i; simp [mkRecords, mkRecord, ih (i + 1)]

theorem commitGo_ok (env : CommitEnv) (ident : String × String) (md : String)
    (orig : List CartItem) (N : Nat) :
    ∀ (items : List CartItem) (i : Nat) (store : List Record) (prog : List (Nat × Nat)),
    (∀ j, j < items.length → env.appendOk (i + j) = true) →
    commitGo env ident md orig N i items store prog
      = { store := store ++ mkRecords env ident md i items, cart := [],
          progress := prog ++ progOk N i items.length, success := true } := by
  intro items
  induction items with
  | nil =>
      intro i store prog _
      simp [commitGo, mkRecords, progOk]
  | cons a rest ih =>
      intro i store prog h
      have h0 : env.appendOk i = true := by
        have := h 0 (Nat.succ_pos _)
        simpa using this
      have hrest : ∀ j, j < rest.length → env.appendOk (i + 1 + j) = true := by
        intro j hj
        have := h (j + 1) (Nat.succ_lt_succ hj)
        have e : i + (j + 1) = i + 1 + j := by omega
        simpa [e] using this
      simp only [commitGo, h0, if_true]
      rw [ih (i + 1) (store ++ [mkRecord env ident md i a]) (prog ++ [(i + 1, N)]) hrest]
      simp [mkRecords, progOk]

theorem commitGo_fatal (env : CommitEnv) (ident : String × String) (md : String)
    (orig : List CartItem) (N : Nat) :
    ∀ (items : List CartItem) (p i : Nat) (store : List Record) (prog : List (Nat × Nat)),
    p < items.length →
    (∀ j, j < p → env.appendOk (i + j) = true) →
    env.appendOk (i + p) = false →
    commitGo env ident md orig N i items store prog
      = { store := store ++ mkRecords env ident md i (items.take p), cart := orig,
          progress := prog ++ progOk N i p, success := false } := by
  intro items
  induction items with
  | nil =>
      intro p i store prog hp _ _
      exact absurd hp (by simp)
  | cons a rest ih =>
      intro p i store prog hp hok hfail
      match p with
      | 0 =>
          have h0 : env.appendOk i = false := by simpa using hfail
          simp [commitGo, h0, mkRecords, progOk]
      | q + 1 =>
          have h0 : env.appendOk i = true := by
            have := hok 0 (Nat.succ_pos _)
            simpa using this
          have hokq : ∀ j, j < q → env.appendOk (i + 1 + j) = true := by
            intro j hj
            have := hok (j + 1) (Nat.succ_lt_succ hj)
            have e : i + (j + 1) = i + 1 + j := by omega
            simpa [e] using this
          have hfailq : env.appendOk (i + 1 + q) = false := by
            have e : i + (q + 1) = i + 1 + q := by omega
            simpa [e] using hfail
          have hq : q < rest.length := by simpa using Nat.lt_of_succ_lt_succ hp
          simp only [commitGo, h0, if_true]
          rw [ih q (i + 1) (store ++ [mkRecord env ident md i a]) (prog ++ [(i + 1, N)])
            hq hokq hfailq]
          simp [mkRecords, progOk]

theorem auth_iff (df_config : List ConfigRow) (d g s : String) :
    authenticate df_config d g s = true
      ↔ ∃ r ∈ df_config, r.department = d ∧ r.group = g ∧ r.password.toText = s := by
  simp [authenticate, List.isEmpty_iff, List.filter_eq_nil_iff]

/-! ## Concrete inputs used by witnesses and counterexamples -/

def cfgDemo : List ConfigRow := [⟨"Office A", "G1", Cell.str "pw1"⟩]

def sessDemo : Session := ⟨false, none, []⟩

def fDemo : FileObj := ⟨[1, 2, 3], "a.png", "image/png"⟩

def cartDemo : List CartItem :=
  [⟨"report one", none, "無附件"⟩, ⟨"report two", some fDemo, "a.png"⟩]

def envAllOk : CommitEnv :=
  ⟨fun _ => "id0", fun _ => "2026-10-12 00:00:00",
   fun _ => .resp 200 (.json ⟨some "success", some "http://u", none⟩),
   fun _ => true⟩

def envFailFirst : CommitEnv := { envAllOk with appendOk := fun _ => false }

def envFailSecond : CommitEnv := { envAllOk with appendOk := fun i => i == 0 }

/-! ## Claim theorems -/

/-- C6: `authenticate` returns true iff some loaded config row matches the
department, the group and the secret exactly (case-sensitive comparison of
the string-rendered password cell); it returns false on an empty directory,
and an empty supplied secret never matches a row whose stored secret
renders non-empty. -/
theorem authenticate_exact_match (df_config : List ConfigRow) (d g s : String) :
    (authenticate df_config d g s = true
        ↔ ∃ r ∈ df_config, r.department = d ∧ r.group = g ∧ r.password.toText = s)
    ∧ authenticate [] d g s = false
    ∧ (s = "" → ∀ r ∈ df_config, r.password.toText ≠ "" →
        ¬(r.department = d ∧ r.group = g ∧ r.password.toText = s)) := by
  refine ⟨auth_iff df_config d g s, rfl, ?_⟩
  rintro hs r _ hne ⟨_, _, hsec⟩
  exact hne (by rw [hsec, hs])

theorem authenticate_exact_match_witness :
    authenticate cfgDemo "Office A" "G1" "pw1" = true :=
  (authenticate_exact_match cfgDemo "Office A" "G1" "pw1").1.mpr
    ⟨⟨"Office A", "G1", Cell.str "pw1"⟩, by simp [cfgDemo], rfl, rfl, rfl⟩

/-- C9: the login predicate compares string renderings, not raw cells: a
config row whose password cell is the number n is matched by exactly the
decimal rendering of n, so login with that rendering succeeds. -/
theorem login_matches_string_rendering (d g s : String) (n : Int) :
    (authenticate [⟨d, g, Cell.num n⟩] d g s = true ↔ s = toString n)
    ∧ authenticate [⟨d, g, Cell.num n⟩] d g (toString n) = true := by
  have h : ∀ t : String,
      authenticate [⟨d, g, Cell.num n⟩] d g t = true ↔ t = toString n := by
    intro t
    rw [auth_iff]
    constructor
    · rintro ⟨r, hr, _, _, hs⟩
      simp at hr
      rw [hr] at hs
      exact hs.symm
    · intro hs
      exact ⟨⟨d, g, Cell.num n⟩, by simp, rfl, rfl, by simp [Cell.toText, hs]⟩
  exact ⟨h s, (h (toString n)).mpr rfl⟩

/-- C10: a failed login attempt (no config row matches all three fields)
leaves the session exactly as it was: flag, identity and cart unchanged. -/
theorem failed_login_leaves_session (df_config : List ConfigRow)
    (d g s : String) (sess : Session)
    (h : authenticate df_config d g s = false) :
    loginAttempt df_config d g s sess = sess := by
  simp [loginAttempt, h]

theorem failed_login_leaves_session_witness :
    loginAttempt cfgDemo "Office A" "G1" "wrong" sessDemo = sessDemo :=
  failed_login_leaves_session cfgDemo "Office A" "G1" "wrong" sessDemo (by decide)

/-- C7: staging empty content fails with the validation error and leaves
the cart unchanged; staging non-empty content appends exactly one item,
holding that content and the optional attachment, at the end of the cart
(so every pre-existing element is untouched). -/
theorem stage_spec (content : String) (uploaded_file : Option FileObj)
    (cart : List CartItem) :
    (content = "" → stage content uploaded_file cart = Except.error "內容不能為空")
    ∧ (content ≠ "" → stage content uploaded_file cart
        = Except.ok (cart ++
            [{ content := content, file := uploaded_file,
               file_name := match uploaded_file with
                 | some f => f.name
                 | none => "無附件" }])) := by
  constructor
  · intro h; simp [stage, h]
  · intro h; simp [stage, h]

theorem stage_spec_witness :
    stage "hi" none [] = Except.ok
      [{ content := "hi", file := none, file_name := "無附件" }] :=
  (stage_spec "hi" none []).2 (by decide)

/-- C4 counterexample: at a concrete file, a transport exception and an
unparseable body produce identical results (same handler, same return), a
non-success JSON status also returns the same empty-string sentinel, and a
non-2xx status carrying a success body is not treated as an error at all —
the three error kinds of the claim are not distinctly reported. -/
theorem relay_errors_collapsed_counterexample :
    upload_file_via_gas (some fDemo) (.exn "timeout")
        = upload_file_via_gas (some fDemo) (.resp 200 (.notJson "<html>"))
    ∧ (upload_file_via_gas (some fDemo) (.exn "timeout")).1 = some ""
    ∧ (upload_file_via_gas (some fDemo)
        (.resp 500 (.json ⟨some "error", none, some "x"⟩))).1 = some ""
    ∧ (upload_file_via_gas (some fDemo)
        (.resp 500 (.json ⟨some "success", some "http://u", none⟩))).1
          = some "http://u" := by
  decide

/-- C4 amended: relay failures are reported in only two ways, and to the
caller in only one: a JSON body whose status is not the success sentinel
displays the upload-failed message (with the body's message field) and
returns the empty-string sentinel, while a transport exception and a
non-JSON body both fall into the single generic connection-error handler
and return the same sentinel; the HTTP status code is never consulted. -/
theorem relay_failure_reporting (f : FileObj) (e raw : String) (code : Nat)
    (o : JsonObj) (hs : ¬o.status = some "success") :
    upload_file_via_gas (some f) (.exn e) = (some "", .connectionError)
    ∧ upload_file_via_gas (some f) (.resp code (.notJson raw))
        = (some "", .connectionError)
    ∧ upload_file_via_gas (some f) (.resp code (.json o))
        = (some "", .uploadFailed o.message) := by
  refine ⟨rfl, rfl, ?_⟩
  simp [upload_file_via_gas, hs]

theorem relay_failure_reporting_witness :
    upload_file_via_gas (some fDemo) (.resp 500 (.json ⟨some "error", none, some "x"⟩))
      = (some "", .uploadFailed (some "x")) :=
  (relay_failure_reporting fDemo "e" "raw" 500 ⟨some "error", none, some "x"⟩
    (by decide)).2.2

/-- C8: the POSTed payload carries exactly the base64 encoding of the raw
bytes together with the file's name and MIME type, and a JSON response
whose status is the success sentinel yields exactly the embedded url;
sample encodings agree with RFC 4648 test vectors. -/
theorem upload_protocol_base64 (f : FileObj) (code : Nat) (u : String)
    (msg : Option String) :
    (uploadPayload f).file = base64Encode f.content
    ∧ (uploadPayload f).filename = f.name
    ∧ (uploadPayload f).mimeType = f.mimeType
    ∧ (upload_file_via_gas (some f)
        (.resp code (.json ⟨some "success", some u, msg⟩))).1 = some u
    ∧ base64Encode [77, 97, 110] = "TWFu"
    ∧ base64Encode [104, 101, 108, 108, 111] = "aGVsbG8=" := by
  exact ⟨rfl, rfl, rfl, rfl, by decide, by decide⟩

/-- C3: two cache reads within the TTL with no intervening invalidation
return the same snapshot data while exactly one external fetch is
performed (even if the store has changed in between), and after
`invalidate()` the next read fetches fresh from the store regardless of the
remaining TTL. The cache is modelled from spec §4.2 (src/app.py has no
read cache). -/
theorem cache_ttl_hit_and_invalidate (ttl t1 t2 fc : Nat)
    (store store2 : List Record) (h1 : t1 ≤ t2) (h2 : t2 - t1 < ttl) :
    ((cacheGet ttl t2 store2 (cacheGet ttl t1 store ⟨none, 0, fc⟩).2).1
        = (cacheGet ttl t1 store ⟨none, 0, fc⟩).1
      ∧ (cacheGet ttl t2 store2 (cacheGet ttl t1 store ⟨none, 0, fc⟩).2).2.fetchCount
        = fc + 1)
    ∧ ∀ (c : CacheState) (now : Nat) (fresh : List Record),
        (cacheGet ttl now fresh (cacheInvalidate c)).1 = fresh
        ∧ (cacheGet ttl now fresh (cacheInvalidate c)).2.fetchCount
            = c.fetchCount + 1 := by
  constructor
  · simp [cacheGet, h2]
  · intro c now fresh
    simp [cacheGet, cacheInvalidate]

theorem cache_ttl_hit_and_invalidate_witness :
    (cacheGet 60 40 [] (cacheGet 60 10 [] ⟨none, 0, 0⟩).2).2.fetchCount = 0 + 1 :=
  ((cache_ttl_hit_and_invalidate 60 10 40 0 [] [] (by decide) (by decide)).1).2

/-- C1: committing a cart with every append succeeding appends exactly
`cart.length` records to the store, in cart (FIFO) order of contents,
clears the cart, reaches the success path, and — with the cache
invalidated — the next cache read returns the updated store without
waiting out the TTL. -/
theorem commit_success_appends_all (env : CommitEnv) (ident : String × String)
    (md : String) (cart : List CartItem) (store : List Record)
    (ttl now : Nat) (c : CacheState)
    (happ : ∀ j, j < cart.length → env.appendOk j = true) :
    (commitBatch env ident md cart store).store
        = store ++ mkRecords env ident md 0 cart
    ∧ (mkRecords env ident md 0 cart).length = cart.length
    ∧ (mkRecords env ident md 0 cart).map (fun r => r.content)
        = cart.map (fun x => x.content)
    ∧ (commitBatch env ident md cart store).cart = []
    ∧ (commitBatch env ident md cart store).success = true
    ∧ (cacheGet ttl now (commitBatch env ident md cart store).store
        (cacheInvalidate c)).1
        = (commitBatch env ident md cart store).store := by
  have h := commitGo_ok env ident md cart cart.length cart 0 store []
    (fun j hj => by simpa using happ j hj)
  refine ⟨?_, mkRecords_length env ident md cart 0,
    mkRecords_map_content env ident md cart 0, ?_, ?_, ?_⟩
  · simp only [commitBatch, h]
  · simp only [commitBatch, h]
  · simp only [commitBatch, h]
  · simp only [commitBatch, h, cacheGet, cacheInvalidate]

theorem commit_success_appends_all_witness :
    (commitBatch envAllOk ("dept", "grp") "2026-10-12" cartDemo []).cart = [] :=
  (commit_success_appends_all envAllOk ("dept", "grp") "2026-10-12" cartDemo [] 60 0
    ⟨none, 0, 0⟩ (by decide)).2.2.2.1

/-- C2: when the append of the item at 0-indexed position p (1-indexed
k = p+1) raises, the loop stops without attempting later items: the store
gains records for exactly the first p items (none for item k), the cart
keeps all its items unmodified, the run reports failure, and re-running
commit on the unchanged cart with appends now succeeding appends records
for the whole cart again — in particular the first p items' contents are
re-appended (duplicated). -/
theorem commit_fatal_stop_preserves_cart (env env2 : CommitEnv)
    (ident : String × String) (md : String) (cart : List CartItem)
    (store : List Record) (p : Nat) (hp : p < cart.length)
    (hok : ∀ j, j < p → env.appendOk j = true)
    (hfail : env.appendOk p = false)
    (hok2 : ∀ j, j < cart.length → env2.appendOk j = true) :
    (commitBatch env ident md cart store).store
        = store ++ mkRecords env ident md 0 (cart.take p)
    ∧ (commitBatch env ident md cart store).cart = cart
    ∧ (commitBatch env ident md cart store).success = false
    ∧ (mkRecords env ident md 0 (cart.take p)).map (fun r => r.content)
        = (cart.take p).map (fun x => x.content)
    ∧ (commitBatch env2 ident md (commitBatch env ident md cart store).cart
          (commitBatch env ident md cart store).store).store
        = (commitBatch env ident md cart store).store
            ++ mkRecords env2 ident md 0 cart
    ∧ (mkRecords env2 ident md 0 cart).map (fun r => r.content)
        = cart.map (fun x => x.content) := by
  have h1 := commitGo_fatal env ident md cart cart.length cart p 0 store []
    hp (fun j hj => by simpa using hok j hj) (by simpa using hfail)
  have h2 := commitGo_ok env2 ident md cart cart.length cart 0
    (store ++ mkRecords env ident md 0 (cart.take p)) []
    (fun j hj => by simpa using hok2 j hj)
  refine ⟨?_, ?_, ?_, mkRecords_map_content env ident md (cart.take p) 0, ?_,
    mkRecords_map_content env2 ident md cart 0⟩
  · simp only [commitBatch, h1]
  · simp only [commitBatch, h1]
  · simp only [commitBatch, h1]
  · simp only [commitBatch, h1, h2]

theorem commit_fatal_stop_preserves_cart_witness :
    (commitBatch envFailSecond ("dept", "grp") "2026-10-12" cartDemo []).cart
      = cartDemo :=
  (commit_fatal_stop_preserves_cart envFailSecond envAllOk ("dept", "grp")
    "2026-10-12" cartDemo [] 1 (by decide) (by decide) (by decide) (by decide)).2.1

/-- C5 counterexample: for the two-item demo cart whose first append fails,
no progress fraction at all is reported — the 1/2 progress event the claim
promises after item 1 never reaches the caller. -/
theorem progress_skipped_counterexample :
    (commitBatch envFailFirst ("dept", "grp") "2026-10-12" cartDemo []).progress = []
    ∧ ¬((1, 2) ∈
        (commitBatch envFailFirst ("dept", "grp") "2026-10-12" cartDemo []).progress)
    ∧ (commitBatch envFailFirst ("dept", "grp") "2026-10-12" cartDemo []).success
        = false := by
  decide

/-- C5 amended: the progress fraction (i, N) (meaning i/N) is reported
after item i only when that item's append succeeded: on a fatal append
failure at 0-indexed position p (1-indexed k = p+1) the reported progress
is exactly 1/N, ..., p/N, so the caller's last progress is (k-1)/N, and no
progress is reported for the failed item. -/
theorem progress_per_successful_append (env : CommitEnv)
    (ident : String × String) (md : String) (cart : List CartItem)
    (store : List Record) (p : Nat) (hp : p < cart.length)
    (hok : ∀ j, j < p → env.appendOk j = true)
    (hfail : env.appendOk p = false) :
    (commitBatch env ident md cart store).progress
      = (List.range p).map (fun j => (j + 1, cart.length)) := by
  have h1 := commitGo_fatal env ident md cart cart.length cart p 0 store []
    hp (fun j hj => by simpa using hok j hj) (by simpa using hfail)
  simp only [commitBatch, h1, List.nil_append]
  rw [progOk_eq_range]
  simp

theorem progress_per_successful_append_witness :
    (commitBatch envFailSecond ("dept", "grp") "2026-10-12" cartDemo []).progress
      = (List.range 1).map (fun j => (j + 1, cartDemo.length)) :=
  progress_per_successful_append envFailSecond ("dept", "grp") "2026-10-12"
    cartDemo [] 1 (by decide) (by decide) (by decide)
